import Mathlib

/-!
Shallow embedding of ctapipe/visualization/mpl.py (class CameraDisplay).

The module builds one matplotlib patch per camera pixel from a geometry
object, collects them into a PatchCollection attached to an axes object,
and supports updating the displayed per-pixel values (set_image), changing
the color map (set_cmap) and overlaying ellipses (add_ellipse,
overlay_moments).

Scalars are modelled as real numbers; matplotlib patch constructors are
modelled as an inductive of their argument tuples; the mutable state of a
display (the collection, the overlays added to the axes, labels, and the
number of forced plt.draw calls) is a structure threaded explicitly.
-/

open Real

/-- The geometry object consumed by the constructor: per-pixel x, y and
area sequences (the .value arrays, units stripped), a pixel shape tag
string, and the unit labels used for the axis labels. -/
structure CameraGeometry where
  pix_x : List ℝ
  pix_y : List ℝ
  pix_area : List ℝ
  pix_type : String
  pix_x_unit : String
  pix_y_unit : String

/-- A matplotlib patch, recorded as the arguments the source passes to the
corresponding constructor.  RegularPolygon(xy, numVertices, radius,
orientation, fill); Rectangle(xy, width, height, angle, fill); Ellipse(xy,
width, height, angle, fill, extra style keywords). -/
inductive Patch where
  | regularPolygon (xy : ℝ × ℝ) (numVertices : ℕ) (radius : ℝ)
      (orientation : ℝ) (fill : Bool)
  | rectangle (xy : ℝ × ℝ) (width : ℝ) (height : ℝ) (angle : ℝ) (fill : Bool)
  | ellipse (xy : ℝ × ℝ) (width : ℝ) (height : ℝ) (angle : ℝ) (fill : Bool)
      (style : List (String × String))

/-- Degrees-to-radians conversion (numpy.radians). -/
noncomputable def npRadians (x : ℝ) : ℝ := x * Real.pi / 180

/-- Radians-to-degrees conversion (numpy.degrees). -/
noncomputable def npDegrees (x : ℝ) : ℝ := x * 180 / Real.pi

/-- Geometric center of a patch, following matplotlib's documented
conventions: a RegularPolygon's and an Ellipse's xy argument is the shape's
center, while a Rectangle's xy argument is its anchor (lower-left) corner,
the rectangle extending by (width, height) from there, rotated about the
anchor by its angle in degrees. -/
noncomputable def Patch.center : Patch → ℝ × ℝ
  | .regularPolygon xy _ _ _ _ => xy
  | .ellipse xy _ _ _ _ _ => xy
  | .rectangle xy w h a _ =>
      (xy.1 + w / 2 * Real.cos (npRadians a) - h / 2 * Real.sin (npRadians a),
       xy.2 + w / 2 * Real.sin (npRadians a) + h / 2 * Real.cos (npRadians a))

/-- Whether the patch was constructed filled. -/
def Patch.isFilled : Patch → Bool
  | .regularPolygon _ _ _ _ f => f
  | .rectangle _ _ _ _ f => f
  | .ellipse _ _ _ _ f _ => f

/-- Full extent of an ellipse patch along its longer principal axis (its
width and height arguments are the two principal-axis diameters; the major
one is the larger).  Zero for the other patch kinds, which have no
major/minor axis distinction. -/
noncomputable def Patch.majorExtent : Patch → ℝ
  | .ellipse _ w h _ _ _ => max w h
  | _ => 0

/-- Full extent of an ellipse patch along its shorter principal axis.
Zero for the other patch kinds. -/
noncomputable def Patch.minorExtent : Patch → ℝ
  | .ellipse _ w h _ _ _ => min w h
  | _ => 0

/-- Rotation angle argument of a patch, in degrees for Rectangle and
Ellipse and in radians for RegularPolygon, exactly as matplotlib takes it. -/
def Patch.rotation : Patch → ℝ
  | .regularPolygon _ _ _ o _ => o
  | .rectangle _ _ _ a _ => a
  | .ellipse _ _ _ a _ _ => a

/-- Style keyword arguments attached to a patch (the kwargs forwarded to
the Ellipse constructor); empty for the pixel patches. -/
def Patch.style : Patch → List (String × String)
  | .ellipse _ _ _ _ _ s => s
  | _ => []

/-- Python str.startswith(pre): whether the character sequence of pre is a
prefix of the character sequence of s.  This is the semantics of
String.startsWith, stated over the underlying character lists so that it
reduces on literal strings. -/
def pyStartsWith (s pre : String) : Bool := pre.data.isPrefixOf s.data

/-- One loop iteration of the constructor.  For a pixel at (xx, yy) with
area aa: if geom.pix_type starts with "hex", a RegularPolygon with 6
vertices, radius sqrt(aa*2/3/sqrt(3)), orientation radians(0), filled;
otherwise a Rectangle at (xx, yy) with width and height 2*sqrt(aa), angle
radians(0), filled. -/
noncomputable def buildPatch (pix_type : String) (xx yy aa : ℝ) : Patch :=
  if pyStartsWith pix_type "hex" then
    let rr := Real.sqrt (aa * 2 / 3 / Real.sqrt 3)
    Patch.regularPolygon (xx, yy) 6 rr (npRadians 0) true
  else
    let rr := Real.sqrt aa
    Patch.rectangle (xx, yy) (2 * rr) (2 * rr) (npRadians 0) true

/-- The patch list the constructor accumulates: one buildPatch per element
of zip(pix_x, pix_y, pix_area), in iteration order (zip truncates to the
shortest sequence, as in Python). -/
noncomputable def buildPatches (geom : CameraGeometry) : List Patch :=
  ((geom.pix_x.zip geom.pix_y).zip geom.pix_area).map
    fun p => buildPatch geom.pix_type p.1.1 p.1.2 p.2

/-- The PatchCollection holding the pixel shapes: its patch list, current
color map, line width, and the scalar value array installed by set_array
(absent until the first set_image). -/
structure PatchCollection where
  patches : List Patch
  cmap : String
  linewidth : ℝ
  array : Option (List ℝ)

/-- Display state of a CameraDisplay instance: the retained geometry
reference, the pixel PatchCollection (self.pixels, the one collection added
to the axes), the patches later added to the axes by add_patch (the
overlays), the title and axis labels set on the axes, and the number of
plt.draw calls issued (each a forced redraw of the surface). -/
structure CameraDisplay where
  geom : CameraGeometry
  pixels : PatchCollection
  overlays : List Patch
  title : String
  xlabel : String
  ylabel : String
  drawCount : ℕ

/-- CameraDisplay.__init__: builds the per-pixel patches, wraps them in a
PatchCollection with the jet color map and zero line width, adds the
collection to the axes, sets title and unit-bearing axis labels, and
registers the pick handler.  No plt.draw is issued here and no value array
is installed on the collection yet. -/
noncomputable def CameraDisplay.create (geom : CameraGeometry) (title : String) :
    CameraDisplay where
  geom := geom
  pixels :=
    { patches := buildPatches geom
      cmap := "jet"
      linewidth := 0
      array := none }
  overlays := []
  title := title
  xlabel := "X position (" ++ geom.pix_x_unit ++ ")"
  ylabel := "Y position (" ++ geom.pix_y_unit ++ ")"
  drawCount := 0

/-- The error raised by set_image on a shape mismatch (a ValueError in the
source; the spec's ShapeMismatchError).  It records the two shapes put into
the message: the shape of the offending image and the shape of the
geometry's pix_x array.  Shapes of the one-dimensional arrays are their
lengths. -/
structure ShapeMismatchError where
  imageShape : ℕ
  geometryShape : ℕ
deriving DecidableEq, Repr

/-- The message of the raised error, built exactly as the source formats
it: two adjacent Python string literals concatenate without a space, so
the text reads "than thegiven". -/
def ShapeMismatchError.message (e : ShapeMismatchError) : String :=
  "Image has a different shape " ++ toString e.imageShape ++ " than the"
    ++ "given CameraGeometry " ++ toString e.geometryShape

/-- CameraDisplay.set_cmap: replaces the collection's color map; nothing
else is touched and no redraw is issued. -/
noncomputable def CameraDisplay.set_cmap (d : CameraDisplay) (cmap : String) :
    CameraDisplay :=
  { d with pixels := { d.pixels with cmap := cmap } }

/-- CameraDisplay.set_image: raises when image.shape differs from
geom.pix_x.shape, before any mutation; otherwise installs the image as the
collection's value array (set_array) and issues plt.draw. -/
noncomputable def CameraDisplay.set_image (d : CameraDisplay) (image : List ℝ) :
    Except ShapeMismatchError CameraDisplay :=
  if image.length ≠ d.geom.pix_x.length then
    .error ⟨image.length, d.geom.pix_x.length⟩
  else
    .ok { d with
            pixels := { d.pixels with array := some image }
            drawCount := d.drawCount + 1 }

/-- The display as a caller that catches the exception observes it after a
set_image call: the updated display on success, the unmodified receiver
when the call raised (the source raises before any mutation). -/
noncomputable def CameraDisplay.set_image_after (d : CameraDisplay)
    (image : List ℝ) : CameraDisplay :=
  match d.set_image image with
  | .ok d2 => d2
  | .error _ => d

/-- CameraDisplay.add_ellipse: builds Ellipse(xy=centroid, width=width,
height=length, angle=degrees(angle), fill=False, **style), adds it to the
axes with add_patch, issues plt.draw, and returns the patch.  The
asymmetry argument is accepted and unused, as in the source. -/
noncomputable def CameraDisplay.add_ellipse (d : CameraDisplay)
    (centroid : ℝ × ℝ) (length width angle asymmetry : ℝ)
    (style : List (String × String)) : CameraDisplay × Patch :=
  let e := Patch.ellipse centroid width length (npDegrees angle) false style
  ({ d with overlays := d.overlays ++ [e], drawCount := d.drawCount + 1 }, e)

/-- The moment-parameters structure consumed by overlay_moments: centroid
coordinates, major and minor axis, and rotation angle psi in radians. -/
structure MomentParameters where
  cen_x : ℝ
  cen_y : ℝ
  length : ℝ
  width : ℝ
  psi : ℝ

/-- CameraDisplay.overlay_moments: forwards (cen_x, cen_y) as centroid and
length, width, psi as length, width, angle to add_ellipse, passing the
style keywords through unchanged; the asymmetry argument is left at its
default 0.0.  The method body has no return statement, so the Python call
returns None: the second component models that return value. -/
noncomputable def CameraDisplay.overlay_moments (d : CameraDisplay)
    (momparams : MomentParameters) (style : List (String × String)) :
    CameraDisplay × Option Patch :=
  let r := d.add_ellipse (momparams.cen_x, momparams.cen_y)
    momparams.length momparams.width momparams.psi 0 style
  (r.1, none)

/-- A concrete two-pixel geometry with a hexagonal shape tag, used to
instantiate the construction theorems. -/
noncomputable def hexGeom2 : CameraGeometry where
  pix_x := [0, 1]
  pix_y := [0, 2]
  pix_area := [1, 1]
  pix_type := "hexagonal"
  pix_x_unit := "m"
  pix_y_unit := "m"

/-- A concrete one-pixel geometry with a rectangular shape tag, pixel at
the origin with unit area. -/
noncomputable def rectGeom1 : CameraGeometry where
  pix_x := [0]
  pix_y := [0]
  pix_area := [1]
  pix_type := "rectangular"
  pix_x_unit := "m"
  pix_y_unit := "m"

theorem zip3_getElem? (xs : List ℝ) : ∀ (ys zs : List ℝ) (i : ℕ),
    i < xs.length → i < ys.length → i < zs.length →
    ((xs.zip ys).zip zs)[i]? =
      some ((xs.getD i 0, ys.getD i 0), zs.getD i 0) := by
  induction xs with
  | nil => intro ys zs i hx _ _; exact absurd hx (by simp)
  | cons x xs ih =>
    intro ys zs i hx hy hz
    cases ys with
    | nil => exact absurd hy (by simp)
    | cons y ys =>
      cases zs with
      | nil => exact absurd hz (by simp)
      | cons z zs =>
        cases i with
        | zero => simp
        | succ i =>
          simpa using ih (ys) (zs) i (by simpa using hx) (by simpa using hy)
            (by simpa using hz)

theorem buildPatches_length (geom : CameraGeometry)
    (hxy : geom.pix_x.length = geom.pix_y.length)
    (hxa : geom.pix_x.length = geom.pix_area.length) :
    (buildPatches geom).length = geom.pix_x.length := by
  simp only [buildPatches, List.length_map, List.length_zip]
  omega

theorem buildPatches_getElem? (geom : CameraGeometry)
    (hxy : geom.pix_x.length = geom.pix_y.length)
    (hxa : geom.pix_x.length = geom.pix_area.length)
    (i : ℕ) (hi : i < geom.pix_x.length) :
    (buildPatches geom)[i]? =
      some (buildPatch geom.pix_type (geom.pix_x.getD i 0)
        (geom.pix_y.getD i 0) (geom.pix_area.getD i 0)) := by
  simp only [buildPatches, List.getElem?_map,
    zip3_getElem? geom.pix_x geom.pix_y geom.pix_area i hi (hxy ▸ hi) (hxa ▸ hi)]
  rfl

theorem hex_area_law (a : ℝ) (ha : 0 ≤ a) :
    a = 3 * Real.sqrt 3 / 2 * (Real.sqrt (a * 2 / (3 * Real.sqrt 3)))^2 := by
  have h3 : (0 : ℝ) < Real.sqrt 3 := Real.sqrt_pos.mpr (by norm_num)
  have harg : 0 ≤ a * 2 / (3 * Real.sqrt 3) := by positivity
  rw [Real.sq_sqrt harg]
  field_simp
  ring

/-- Claim C5: constructing a display from a valid geometry with N pixels
yields exactly N shapes in the collection, one per pixel, in the order of
the input pixel sequences (patch i is built from pixel i). -/
theorem create_shape_count (geom : CameraGeometry) (t : String)
    (hxy : geom.pix_x.length = geom.pix_y.length)
    (hxa : geom.pix_x.length = geom.pix_area.length) :
    (CameraDisplay.create geom t).pixels.patches.length = geom.pix_x.length ∧
    ∀ i : ℕ, i < geom.pix_x.length →
      (CameraDisplay.create geom t).pixels.patches[i]? =
        some (buildPatch geom.pix_type (geom.pix_x.getD i 0)
          (geom.pix_y.getD i 0) (geom.pix_area.getD i 0)) :=
  ⟨buildPatches_length geom hxy hxa,
   fun i hi => buildPatches_getElem? geom hxy hxa i hi⟩

/-- Witness for create_shape_count at the concrete geometry hexGeom2. -/
theorem create_shape_count_witness :
    hexGeom2.pix_x.length = hexGeom2.pix_y.length ∧
    hexGeom2.pix_x.length = hexGeom2.pix_area.length ∧
    ((CameraDisplay.create hexGeom2 "Camera").pixels.patches.length =
        hexGeom2.pix_x.length ∧
      ∀ i : ℕ, i < hexGeom2.pix_x.length →
        (CameraDisplay.create hexGeom2 "Camera").pixels.patches[i]? =
          some (buildPatch hexGeom2.pix_type (hexGeom2.pix_x.getD i 0)
            (hexGeom2.pix_y.getD i 0) (hexGeom2.pix_area.getD i 0))) :=
  ⟨rfl, rfl, create_shape_count hexGeom2 "Camera" rfl rfl⟩

/-- Claim C2: for a geometry whose shape tag starts with "hex" (hexagonal
pixels) and any pixel index i with nonnegative area, construction builds a
regular 6-sided polygon centered at (x_i, y_i), oriented at 0 radians,
filled, with outer radius sqrt(area_i * 2 / (3 * sqrt 3)); that radius r
satisfies area_i = 3 * sqrt 3 / 2 * r ^ 2. -/
theorem hexagonal_pixel_patch (geom : CameraGeometry) (t : String)
    (hhex : pyStartsWith geom.pix_type "hex" = true)
    (hxy : geom.pix_x.length = geom.pix_y.length)
    (hxa : geom.pix_x.length = geom.pix_area.length)
    (i : ℕ) (hi : i < geom.pix_x.length)
    (hA : 0 ≤ geom.pix_area.getD i 0) :
    (CameraDisplay.create geom t).pixels.patches[i]? =
      some (Patch.regularPolygon (geom.pix_x.getD i 0, geom.pix_y.getD i 0) 6
        (Real.sqrt (geom.pix_area.getD i 0 * 2 / (3 * Real.sqrt 3))) 0 true) ∧
    geom.pix_area.getD i 0 =
      3 * Real.sqrt 3 / 2 *
        (Real.sqrt (geom.pix_area.getD i 0 * 2 / (3 * Real.sqrt 3))) ^ 2 := by
  refine ⟨?_, hex_area_law _ hA⟩
  have h := buildPatches_getElem? geom hxy hxa i hi
  show (buildPatches geom)[i]? = _
  rw [h]
  simp [buildPatch, hhex, npRadians, div_div]

/-- Witness for hexagonal_pixel_patch at hexGeom2, pixel index 0. -/
theorem hexagonal_pixel_patch_witness :
    pyStartsWith hexGeom2.pix_type "hex" = true ∧
    hexGeom2.pix_x.length = hexGeom2.pix_y.length ∧
    hexGeom2.pix_x.length = hexGeom2.pix_area.length ∧
    0 < hexGeom2.pix_x.length ∧
    0 ≤ hexGeom2.pix_area.getD 0 0 ∧
    ((CameraDisplay.create hexGeom2 "Camera").pixels.patches[0]? =
        some (Patch.regularPolygon
          (hexGeom2.pix_x.getD 0 0, hexGeom2.pix_y.getD 0 0) 6
          (Real.sqrt (hexGeom2.pix_area.getD 0 0 * 2 / (3 * Real.sqrt 3)))
          0 true) ∧
      hexGeom2.pix_area.getD 0 0 =
        3 * Real.sqrt 3 / 2 *
          (Real.sqrt (hexGeom2.pix_area.getD 0 0 * 2 / (3 * Real.sqrt 3))) ^ 2) :=
  ⟨by decide, rfl, rfl, by decide, by norm_num [hexGeom2, List.getD_cons_zero],
   hexagonal_pixel_patch hexGeom2 "Camera" (by decide) rfl rfl 0 (by decide)
     (by norm_num [hexGeom2, List.getD_cons_zero])⟩

/-- Claim C3 fails on the code at a concrete input: for the one-pixel
rectangular geometry rectGeom1 (pixel coordinates (0, 0), area 1) the
constructed patch is a Rectangle anchored at (0, 0) with width and height
2, whose center is (1, 1) rather than the claimed (0, 0), and whose drawn
area is 2 * 2 = 4 rather than the claimed pixel area 1. -/
theorem rectangular_pixel_claim_counterexample :
    (CameraDisplay.create rectGeom1 "Camera").pixels.patches[0]? =
      some (Patch.rectangle (0, 0) 2 2 0 true) ∧
    Patch.center (Patch.rectangle ((0 : ℝ), (0 : ℝ)) 2 2 0 true) = (1, 1) ∧
    ((1 : ℝ), (1 : ℝ)) ≠ ((0 : ℝ), (0 : ℝ)) ∧
    (2 : ℝ) * 2 ≠ 1 := by
  have hrect : pyStartsWith "rectangular" "hex" = false := by decide
  refine ⟨?_, ?_, ?_, ?_⟩
  · show (buildPatches rectGeom1)[0]? = _
    simp [buildPatches, rectGeom1, buildPatch, hrect, npRadians, Real.sqrt_one]
  · simp only [Patch.center, npRadians, zero_mul, zero_div, Real.cos_zero,
      Real.sin_zero, Prod.mk.injEq]
    norm_num
  · simp
  · norm_num

/-- Claim C3 amended: for a geometry whose shape tag does not start with
"hex" and any pixel index i with nonnegative area, construction builds a
filled axis-aligned square Rectangle patch anchored (lower-left corner) at
(x_i, y_i), rotation 0, with side 2 * sqrt(area_i); its center therefore
lies at (x_i + sqrt(area_i), y_i + sqrt(area_i)), and the drawn square
covers area 4 * area_i. -/
theorem rectangular_pixel_patch (geom : CameraGeometry) (t : String)
    (hrect : pyStartsWith geom.pix_type "hex" = false)
    (hxy : geom.pix_x.length = geom.pix_y.length)
    (hxa : geom.pix_x.length = geom.pix_area.length)
    (i : ℕ) (hi : i < geom.pix_x.length)
    (hA : 0 ≤ geom.pix_area.getD i 0) :
    (CameraDisplay.create geom t).pixels.patches[i]? =
      some (Patch.rectangle (geom.pix_x.getD i 0, geom.pix_y.getD i 0)
        (2 * Real.sqrt (geom.pix_area.getD i 0))
        (2 * Real.sqrt (geom.pix_area.getD i 0)) 0 true) ∧
    Patch.center (Patch.rectangle (geom.pix_x.getD i 0, geom.pix_y.getD i 0)
        (2 * Real.sqrt (geom.pix_area.getD i 0))
        (2 * Real.sqrt (geom.pix_area.getD i 0)) 0 true) =
      (geom.pix_x.getD i 0 + Real.sqrt (geom.pix_area.getD i 0),
       geom.pix_y.getD i 0 + Real.sqrt (geom.pix_area.getD i 0)) ∧
    2 * Real.sqrt (geom.pix_area.getD i 0) *
        (2 * Real.sqrt (geom.pix_area.getD i 0)) =
      4 * geom.pix_area.getD i 0 := by
  refine ⟨?_, ?_, ?_⟩
  · have h := buildPatches_getElem? geom hxy hxa i hi
    show (buildPatches geom)[i]? = _
    rw [h]
    simp [buildPatch, hrect, npRadians]
  · simp only [Patch.center, npRadians, zero_mul, zero_div, Real.cos_zero,
      Real.sin_zero, Prod.mk.injEq]
    constructor <;> ring
  · have h := Real.mul_self_sqrt hA
    linear_combination 4 * h

/-- Witness for rectangular_pixel_patch at rectGeom1, pixel index 0. -/
theorem rectangular_pixel_patch_witness :
    pyStartsWith rectGeom1.pix_type "hex" = false ∧
    rectGeom1.pix_x.length = rectGeom1.pix_y.length ∧
    rectGeom1.pix_x.length = rectGeom1.pix_area.length ∧
    0 < rectGeom1.pix_x.length ∧
    0 ≤ rectGeom1.pix_area.getD 0 0 ∧
    ((CameraDisplay.create rectGeom1 "Camera").pixels.patches[0]? =
        some (Patch.rectangle (rectGeom1.pix_x.getD 0 0, rectGeom1.pix_y.getD 0 0)
          (2 * Real.sqrt (rectGeom1.pix_area.getD 0 0))
          (2 * Real.sqrt (rectGeom1.pix_area.getD 0 0)) 0 true) ∧
      Patch.center (Patch.rectangle (rectGeom1.pix_x.getD 0 0, rectGeom1.pix_y.getD 0 0)
          (2 * Real.sqrt (rectGeom1.pix_area.getD 0 0))
          (2 * Real.sqrt (rectGeom1.pix_area.getD 0 0)) 0 true) =
        (rectGeom1.pix_x.getD 0 0 + Real.sqrt (rectGeom1.pix_area.getD 0 0),
         rectGeom1.pix_y.getD 0 0 + Real.sqrt (rectGeom1.pix_area.getD 0 0)) ∧
      2 * Real.sqrt (rectGeom1.pix_area.getD 0 0) *
          (2 * Real.sqrt (rectGeom1.pix_area.getD 0 0)) =
        4 * rectGeom1.pix_area.getD 0 0) :=
  ⟨by decide, rfl, rfl, by decide, by norm_num [rectGeom1, List.getD_cons_zero],
   rectangular_pixel_patch rectGeom1 "Camera" (by decide) rfl rfl 0 (by decide)
     (by norm_num [rectGeom1, List.getD_cons_zero])⟩

/-- Claim C1: for a display built from a valid geometry, set_image fails
with the shape-mismatch error exactly when the image length differs from
the pixel count N fixed at construction (the number of shapes in the
collection); the error carries both shapes and its message states both;
for an image of length N no error is raised. -/
theorem set_image_shape_contract (geom : CameraGeometry) (t : String)
    (image : List ℝ)
    (hxy : geom.pix_x.length = geom.pix_y.length)
    (hxa : geom.pix_x.length = geom.pix_area.length) :
    (image.length ≠ (CameraDisplay.create geom t).pixels.patches.length →
      ∃ e : ShapeMismatchError,
        (CameraDisplay.create geom t).set_image image = Except.error e ∧
        e.imageShape = image.length ∧
        e.geometryShape = (CameraDisplay.create geom t).pixels.patches.length ∧
        e.message = "Image has a different shape " ++ toString image.length
          ++ " than the" ++ "given CameraGeometry "
          ++ toString (CameraDisplay.create geom t).pixels.patches.length) ∧
    (image.length = (CameraDisplay.create geom t).pixels.patches.length →
      ∃ d2, (CameraDisplay.create geom t).set_image image = Except.ok d2) := by
  have hN : (CameraDisplay.create geom t).pixels.patches.length =
      geom.pix_x.length := buildPatches_length geom hxy hxa
  rw [hN]
  constructor
  · intro hne
    have hne2 : image.length ≠ (CameraDisplay.create geom t).geom.pix_x.length :=
      hne
    refine ⟨⟨image.length, geom.pix_x.length⟩, ?_, rfl, rfl, ?_⟩
    · simp only [CameraDisplay.set_image]
      rw [if_pos hne2]
      rfl
    · rfl
  · intro heq
    refine ⟨{ CameraDisplay.create geom t with
        pixels := { (CameraDisplay.create geom t).pixels with array := some image }
        drawCount := (CameraDisplay.create geom t).drawCount + 1 }, ?_⟩
    simp only [CameraDisplay.set_image]
    rw [if_neg (not_not_intro
      (show image.length = (CameraDisplay.create geom t).geom.pix_x.length from heq))]

/-- Witness for set_image_shape_contract at hexGeom2 with the length-1
image [5] against pixel count 2. -/
theorem set_image_shape_contract_witness :
    hexGeom2.pix_x.length = hexGeom2.pix_y.length ∧
    hexGeom2.pix_x.length = hexGeom2.pix_area.length ∧
    ((([(5 : ℝ)]).length ≠
          (CameraDisplay.create hexGeom2 "Camera").pixels.patches.length →
        ∃ e : ShapeMismatchError,
          (CameraDisplay.create hexGeom2 "Camera").set_image [(5 : ℝ)] =
            Except.error e ∧
          e.imageShape = ([(5 : ℝ)]).length ∧
          e.geometryShape =
            (CameraDisplay.create hexGeom2 "Camera").pixels.patches.length ∧
          e.message = "Image has a different shape "
            ++ toString ([(5 : ℝ)]).length ++ " than the"
            ++ "given CameraGeometry "
            ++ toString
              (CameraDisplay.create hexGeom2 "Camera").pixels.patches.length) ∧
      (([(5 : ℝ)]).length =
          (CameraDisplay.create hexGeom2 "Camera").pixels.patches.length →
        ∃ d2, (CameraDisplay.create hexGeom2 "Camera").set_image [(5 : ℝ)] =
          Except.ok d2)) :=
  ⟨rfl, rfl, set_image_shape_contract hexGeom2 "Camera" [(5 : ℝ)] rfl rfl⟩

/-- Claim C4: for an image whose length equals the pixel count fixed at
construction, set_image succeeds; afterwards the collection's stored value
array equals the input values elementwise in the same order, the shapes
are untouched, and one forced redraw was issued. -/
theorem set_image_success_stores_values (geom : CameraGeometry) (t : String)
    (image : List ℝ)
    (hxy : geom.pix_x.length = geom.pix_y.length)
    (hxa : geom.pix_x.length = geom.pix_area.length)
    (hlen : image.length = (CameraDisplay.create geom t).pixels.patches.length) :
    ∃ d2, (CameraDisplay.create geom t).set_image image = Except.ok d2 ∧
      d2.pixels.array = some image ∧
      (∀ i : ℕ, (d2.pixels.array.getD []).getD i 0 = image.getD i 0) ∧
      d2.pixels.patches = (CameraDisplay.create geom t).pixels.patches ∧
      d2.drawCount = (CameraDisplay.create geom t).drawCount + 1 := by
  have hN : (CameraDisplay.create geom t).pixels.patches.length =
      geom.pix_x.length := buildPatches_length geom hxy hxa
  have heq2 : image.length = (CameraDisplay.create geom t).geom.pix_x.length :=
    hlen.trans hN
  refine ⟨{ CameraDisplay.create geom t with
      pixels := { (CameraDisplay.create geom t).pixels with array := some image }
      drawCount := (CameraDisplay.create geom t).drawCount + 1 },
    ?_, rfl, fun i => rfl, rfl, rfl⟩
  simp only [CameraDisplay.set_image]
  rw [if_neg (not_not_intro heq2)]

/-- Witness for set_image_success_stores_values at hexGeom2 with the
length-2 image [3, 4]. -/
theorem set_image_success_stores_values_witness :
    hexGeom2.pix_x.length = hexGeom2.pix_y.length ∧
    hexGeom2.pix_x.length = hexGeom2.pix_area.length ∧
    ([(3 : ℝ), 4]).length =
      (CameraDisplay.create hexGeom2 "Camera").pixels.patches.length ∧
    (∃ d2, (CameraDisplay.create hexGeom2 "Camera").set_image [(3 : ℝ), 4] =
        Except.ok d2 ∧
      d2.pixels.array = some [(3 : ℝ), 4] ∧
      (∀ i : ℕ, (d2.pixels.array.getD []).getD i 0 = ([(3 : ℝ), 4]).getD i 0) ∧
      d2.pixels.patches =
        (CameraDisplay.create hexGeom2 "Camera").pixels.patches ∧
      d2.drawCount = (CameraDisplay.create hexGeom2 "Camera").drawCount + 1) :=
  ⟨rfl, rfl, rfl,
   set_image_success_stores_values hexGeom2 "Camera" [(3 : ℝ), 4] rfl rfl rfl⟩

/-- Claim C6: add_ellipse constructs an unfilled ellipse patch centered at
the centroid whose major-axis extent is the given length and minor-axis
extent the given width (under the input convention width <= length, length
being the major axis), whose rotation is the angle converted from radians
to degrees, carrying the forwarded style keywords; the patch is appended to
the overlays without removing previously added ones, a redraw is issued,
the pixel collection is untouched, and the created patch is returned. -/
theorem add_ellipse_builds_overlay (d : CameraDisplay) (centroid : ℝ × ℝ)
    (length width angle asymmetry : ℝ) (style : List (String × String))
    (hlw : width ≤ length) :
    (d.add_ellipse centroid length width angle asymmetry style).2 =
      Patch.ellipse centroid width length (npDegrees angle) false style ∧
    Patch.center (d.add_ellipse centroid length width angle asymmetry style).2 =
      centroid ∧
    Patch.majorExtent
      (d.add_ellipse centroid length width angle asymmetry style).2 = length ∧
    Patch.minorExtent
      (d.add_ellipse centroid length width angle asymmetry style).2 = width ∧
    Patch.rotation
      (d.add_ellipse centroid length width angle asymmetry style).2 =
      npDegrees angle ∧
    Patch.isFilled
      (d.add_ellipse centroid length width angle asymmetry style).2 = false ∧
    Patch.style (d.add_ellipse centroid length width angle asymmetry style).2 =
      style ∧
    (d.add_ellipse centroid length width angle asymmetry style).1.overlays =
      d.overlays ++ [(d.add_ellipse centroid length width angle asymmetry style).2] ∧
    (d.add_ellipse centroid length width angle asymmetry style).1.pixels =
      d.pixels ∧
    (d.add_ellipse centroid length width angle asymmetry style).1.drawCount =
      d.drawCount + 1 := by
  refine ⟨rfl, rfl, ?_, ?_, rfl, rfl, rfl, rfl, rfl, rfl⟩
  · show max width length = length
    exact max_eq_right hlw
  · show min width length = width
    exact min_eq_left hlw

/-- Witness for add_ellipse_builds_overlay on the display built from
rectGeom1 with centroid (1, 2), length 4, width 2, angle 0. -/
theorem add_ellipse_builds_overlay_witness :
    (2 : ℝ) ≤ 4 ∧
    (((CameraDisplay.create rectGeom1 "Camera").add_ellipse
          ((1 : ℝ), (2 : ℝ)) 4 2 0 0 []).2 =
        Patch.ellipse ((1 : ℝ), (2 : ℝ)) 2 4 (npDegrees 0) false [] ∧
      Patch.center ((CameraDisplay.create rectGeom1 "Camera").add_ellipse
          ((1 : ℝ), (2 : ℝ)) 4 2 0 0 []).2 = ((1 : ℝ), (2 : ℝ)) ∧
      Patch.majorExtent ((CameraDisplay.create rectGeom1 "Camera").add_ellipse
          ((1 : ℝ), (2 : ℝ)) 4 2 0 0 []).2 = 4 ∧
      Patch.minorExtent ((CameraDisplay.create rectGeom1 "Camera").add_ellipse
          ((1 : ℝ), (2 : ℝ)) 4 2 0 0 []).2 = 2 ∧
      Patch.rotation ((CameraDisplay.create rectGeom1 "Camera").add_ellipse
          ((1 : ℝ), (2 : ℝ)) 4 2 0 0 []).2 = npDegrees 0 ∧
      Patch.isFilled ((CameraDisplay.create rectGeom1 "Camera").add_ellipse
          ((1 : ℝ), (2 : ℝ)) 4 2 0 0 []).2 = false ∧
      Patch.style ((CameraDisplay.create rectGeom1 "Camera").add_ellipse
          ((1 : ℝ), (2 : ℝ)) 4 2 0 0 []).2 = [] ∧
      ((CameraDisplay.create rectGeom1 "Camera").add_ellipse
          ((1 : ℝ), (2 : ℝ)) 4 2 0 0 []).1.overlays =
        (CameraDisplay.create rectGeom1 "Camera").overlays ++
          [((CameraDisplay.create rectGeom1 "Camera").add_ellipse
              ((1 : ℝ), (2 : ℝ)) 4 2 0 0 []).2] ∧
      ((CameraDisplay.create rectGeom1 "Camera").add_ellipse
          ((1 : ℝ), (2 : ℝ)) 4 2 0 0 []).1.pixels =
        (CameraDisplay.create rectGeom1 "Camera").pixels ∧
      ((CameraDisplay.create rectGeom1 "Camera").add_ellipse
          ((1 : ℝ), (2 : ℝ)) 4 2 0 0 []).1.drawCount =
        (CameraDisplay.create rectGeom1 "Camera").drawCount + 1) :=
  ⟨by norm_num,
   add_ellipse_builds_overlay (CameraDisplay.create rectGeom1 "Camera")
     ((1 : ℝ), (2 : ℝ)) 4 2 0 0 [] (by norm_num)⟩

/-- Claim C7: overlay_moments is equivalent to add_ellipse on the extracted
moment parameters: the display state it produces equals the one produced by
add_ellipse with centroid (cen_x, cen_y), the length and width fields, psi
as the angle, the default asymmetry 0 and the same style keywords, so the
ellipse overlay created (centroid, axes, rotation, style) is the same. -/
theorem overlay_moments_equiv_add_ellipse (d : CameraDisplay)
    (momparams : MomentParameters) (style : List (String × String)) :
    (d.overlay_moments momparams style).1 =
      (d.add_ellipse (momparams.cen_x, momparams.cen_y) momparams.length
        momparams.width momparams.psi 0 style).1 := rfl

/-- Claim C8: a set_image call with an image whose length differs from the
pixel count raises the shape-mismatch error before any mutation, so the
display a caller observes after catching the error is exactly the prior
one: same collection (patches and previously set value array) and same
overlays. -/
theorem set_image_failure_preserves_state (d : CameraDisplay) (image : List ℝ)
    (h : image.length ≠ d.geom.pix_x.length) :
    d.set_image image =
      Except.error ⟨image.length, d.geom.pix_x.length⟩ ∧
    d.set_image_after image = d ∧
    (d.set_image_after image).pixels = d.pixels ∧
    (d.set_image_after image).pixels.array = d.pixels.array ∧
    (d.set_image_after image).overlays = d.overlays := by
  have herr : d.set_image image =
      Except.error ⟨image.length, d.geom.pix_x.length⟩ := by
    simp only [CameraDisplay.set_image]
    rw [if_pos h]
  have hafter : d.set_image_after image = d := by
    simp [CameraDisplay.set_image_after, herr]
  exact ⟨herr, hafter, by rw [hafter], by rw [hafter], by rw [hafter]⟩

/-- Witness for set_image_failure_preserves_state on the display built from
the one-pixel rectGeom1 with the length-2 image [1, 2]. -/
theorem set_image_failure_preserves_state_witness :
    ([(1 : ℝ), 2]).length ≠
      (CameraDisplay.create rectGeom1 "Camera").geom.pix_x.length ∧
    ((CameraDisplay.create rectGeom1 "Camera").set_image [(1 : ℝ), 2] =
        Except.error ⟨([(1 : ℝ), 2]).length,
          (CameraDisplay.create rectGeom1 "Camera").geom.pix_x.length⟩ ∧
      (CameraDisplay.create rectGeom1 "Camera").set_image_after [(1 : ℝ), 2] =
        CameraDisplay.create rectGeom1 "Camera" ∧
      ((CameraDisplay.create rectGeom1 "Camera").set_image_after
          [(1 : ℝ), 2]).pixels =
        (CameraDisplay.create rectGeom1 "Camera").pixels ∧
      ((CameraDisplay.create rectGeom1 "Camera").set_image_after
          [(1 : ℝ), 2]).pixels.array =
        (CameraDisplay.create rectGeom1 "Camera").pixels.array ∧
      ((CameraDisplay.create rectGeom1 "Camera").set_image_after
          [(1 : ℝ), 2]).overlays =
        (CameraDisplay.create rectGeom1 "Camera").overlays) :=
  ⟨by decide,
   set_image_failure_preserves_state (CameraDisplay.create rectGeom1 "Camera")
     [(1 : ℝ), 2] (by decide)⟩

/-- Claim C9: set_cmap changes only the collection's color map: the patches
(hence shape count, positions and sizes), the stored value array, the
overlays, the geometry and the redraw count are unchanged, also under
repeated calls. -/
theorem set_cmap_changes_only_cmap (d : CameraDisplay) (c1 c2 : String) :
    (d.set_cmap c1).pixels.cmap = c1 ∧
    (d.set_cmap c1).pixels.patches = d.pixels.patches ∧
    (d.set_cmap c1).pixels.array = d.pixels.array ∧
    (d.set_cmap c1).overlays = d.overlays ∧
    (d.set_cmap c1).geom = d.geom ∧
    (d.set_cmap c1).drawCount = d.drawCount ∧
    ((d.set_cmap c1).set_cmap c2).pixels.cmap = c2 ∧
    ((d.set_cmap c1).set_cmap c2).pixels.patches = d.pixels.patches ∧
    ((d.set_cmap c1).set_cmap c2).pixels.array = d.pixels.array :=
  ⟨rfl, rfl, rfl, rfl, rfl, rfl, rfl, rfl, rfl⟩

/-- Claim C10: overlay_moments returns None (its body has no return
statement), so the created ellipse patch, although appended to the
overlays, is not propagated to the caller through the return value. -/
theorem overlay_moments_returns_none (d : CameraDisplay)
    (momparams : MomentParameters) (style : List (String × String)) :
    (d.overlay_moments momparams style).2 = none ∧
    (d.overlay_moments momparams style).1.overlays =
      d.overlays ++ [(d.add_ellipse (momparams.cen_x, momparams.cen_y)
        momparams.length momparams.width momparams.psi 0 style).2] :=
  ⟨rfl, rfl⟩
